import Mathlib

/-!
Verification of the Whisper-Transcriber orchestration core.

This file gives a shallow embedding, in Lean 4, of the parts of the
repository that the specification talks about:

* the `AnalysisTask` record and the `update_task` closure of
  `process_analysis_task` in `server.py` (task state machine);
* `validate_file_content`, `transcribe_audio` (its retry loop) and
  `add_speaker_diarization` from `api/whisper.py`;
* `verify_access_token` from `utils/jwt_helper.py` together with the
  `get_current_username` dependency of `server.py`;
* `analyze_transcript_with_claude` and `wrap_in_html` from
  `utils/claude_analyzer.py`;
* `verify_telegram_init_data` from `utils/telegram_auth.py`.

External collaborators (the HTTP transport, the jose JWT decoder and the
SHA-256 compression function) are modelled as explicit parameters: the
embedded functions receive the observable outcome of each collaborator
call, exactly as the Python code observes it, and the control flow around
those outcomes is translated from the source line by line.

Machine reals (Python floats holding segment timestamps) are modelled as
rationals; every comparison performed by the source on such values is a
plain order comparison that agrees with the rational one on the inputs
considered here.
-/

namespace WhisperTranscriber

/-! ## Task state machine (`server.py`)

The Python source keeps one `AnalysisTask` row per asynchronous job.  The
record below carries exactly the mutable columns that the `update_task`
closure of `process_analysis_task` touches, with Python `None` rendered
as `Option`. -/

/-- Status enum for analysis tasks, from `class TaskStatus` in `server.py`. -/
inductive TaskStatus where
  | pending
  | transcribing
  | analyzing
  | completed
  | failed
deriving DecidableEq, Repr

/-- The mutable columns of one `AnalysisTask` row (`server.py`). -/
structure AnalysisTask where
  status : TaskStatus
  progress : Int
  transcript : Option String
  analysis_html : Option String
  error_message : Option String
  completed_at : Option Nat
deriving DecidableEq, Repr

/-- Python truthiness of an optional string argument: `None` and the empty
string are falsy, every other string is truthy. -/
def strTruthy : Option String → Bool
  | none => false
  | some s => s ≠ ""

/-- The `update_task` closure of `process_analysis_task` (`server.py`,
lines 263–281), applied to the task row found by `session.get`.  It
unconditionally assigns `status` and `progress`; `error_message`,
`transcript` (truncated to 50000 characters) and `analysis_html` only when
the corresponding argument is truthy; and stamps `completed_at` with the
current time exactly when the new status is `COMPLETED`.  The `now`
argument stands for `datetime.utcnow()`. -/
def update_task (now : Nat) (t : AnalysisTask) (status : TaskStatus) (progress : Int)
    (error : Option String) (transcript : Option String) (analysis : Option String) :
    AnalysisTask :=
  let t1 := { t with status := status, progress := progress }
  let t2 := if strTruthy error then { t1 with error_message := error } else t1
  let t3 := if strTruthy transcript then
      { t2 with transcript := transcript.map (fun s => s.take 50000) } else t2
  let t4 := if strTruthy analysis then { t3 with analysis_html := analysis } else t3
  if status = TaskStatus.completed then { t4 with completed_at := some now } else t4

/-- The `fail` use of `update_task` as performed by the exception handler of
`process_analysis_task` (`server.py`, line 325): it passes status `FAILED`,
progress `0` and the error text, and leaves the other arguments at their
`None` defaults. -/
def failTask (now : Nat) (t : AnalysisTask) (err : String) : AnalysisTask :=
  update_task now t TaskStatus.failed 0 (some err) none none

/-- A concrete task row that has reached `COMPLETED`, used as the input of
the counterexamples below. -/
def completedTask : AnalysisTask :=
  { status := TaskStatus.completed
    progress := 100
    transcript := some "transcript text"
    analysis_html := some "<!DOCTYPE html>report"
    error_message := none
    completed_at := some 50 }

/-- A concrete task row still in flight, with nonzero progress. -/
def inflightTask : AnalysisTask :=
  { status := TaskStatus.transcribing
    progress := 30
    transcript := none
    analysis_html := none
    error_message := none
    completed_at := none }

/-- C1 counterexample.  The claim says that invoking the fail update after a
task has reached `COMPLETED` never overwrites the `COMPLETED` status; but
`update_task` carries no terminal-state guard, so failing the concrete
completed task rewrites its status to `FAILED`. -/
theorem updateTask_overwrites_completed_status :
    (failTask 60 completedTask "boom").status ≠ TaskStatus.completed := by
  decide

/-- C1 amended.  What `update_task` actually guarantees after `COMPLETED`:
the fail update is accepted and overwrites `status` (to `FAILED`) and
`progress` (to `0`), while the stored transcript, the stored analysis
result and `completed_at` are left unchanged. -/
theorem updateTask_fail_after_completed (now : Nat) (t : AnalysisTask) (err : String)
    (hc : t.status = TaskStatus.completed) :
    (failTask now t err).status = TaskStatus.failed ∧
    (failTask now t err).progress = 0 ∧
    (failTask now t err).analysis_html = t.analysis_html ∧
    (failTask now t err).transcript = t.transcript ∧
    (failTask now t err).completed_at = t.completed_at := by
  unfold failTask update_task
  cases hte : strTruthy (some err) <;> simp [strTruthy, hte]

/-- C1 amended, witnessed on the concrete completed task. -/
theorem updateTask_fail_after_completed_witness :
    completedTask.status = TaskStatus.completed ∧
    ((failTask 60 completedTask "boom").status = TaskStatus.failed ∧
     (failTask 60 completedTask "boom").progress = 0 ∧
     (failTask 60 completedTask "boom").analysis_html = completedTask.analysis_html ∧
     (failTask 60 completedTask "boom").transcript = completedTask.transcript ∧
     (failTask 60 completedTask "boom").completed_at = completedTask.completed_at) :=
  ⟨by decide, updateTask_fail_after_completed 60 completedTask "boom" (by decide)⟩

/-- C5 counterexample.  The claim says the fail operation leaves the task's
progress value as-is; but `process_analysis_task` invokes
`update_task(TaskStatus.FAILED, 0, error=...)`, which resets progress to 0:
failing the concrete in-flight task (progress 30) does not preserve its
progress. -/
theorem failTask_resets_progress :
    (failTask 7 inflightTask "network down").progress ≠ inflightTask.progress := by
  decide

/-- C5 amended.  What the fail path actually does on any task in any state:
it sets status `FAILED`, stores the error message, resets `progress` to 0
(rather than leaving it as-is), and leaves any stored transcript and
analysis fields unchanged. -/
theorem failTask_effect (now : Nat) (t : AnalysisTask) (err : String) (he : err ≠ "") :
    (failTask now t err).status = TaskStatus.failed ∧
    (failTask now t err).error_message = some err ∧
    (failTask now t err).progress = 0 ∧
    (failTask now t err).transcript = t.transcript ∧
    (failTask now t err).analysis_html = t.analysis_html := by
  unfold failTask update_task
  simp [strTruthy, he]

/-- C5 amended, witnessed on the concrete in-flight task. -/
theorem failTask_effect_witness :
    ("network down" : String) ≠ "" ∧
    ((failTask 7 inflightTask "network down").status = TaskStatus.failed ∧
     (failTask 7 inflightTask "network down").error_message = some "network down" ∧
     (failTask 7 inflightTask "network down").progress = 0 ∧
     (failTask 7 inflightTask "network down").transcript = inflightTask.transcript ∧
     (failTask 7 inflightTask "network down").analysis_html = inflightTask.analysis_html) :=
  ⟨by decide, failTask_effect 7 inflightTask "network down" (by decide)⟩

/-! ## File validator (`api/whisper.py`, `validate_file_content`) -/

/-- Allow-listed audio container extensions, `SUPPORTED_AUDIO_TYPES` in
`api/whisper.py`.  The Python value is a set; membership is what matters,
and this list fixes one enumeration order for the error message. -/
def SUPPORTED_AUDIO_TYPES : List String :=
  [".mp3", ".mp4", ".mpeg", ".mpga", ".m4a", ".wav", ".webm",
   ".flac", ".ogg", ".oga", ".opus", ".3gp", ".aac", ".amr"]

/-- Maximum accepted upload size in bytes, `MAX_FILE_SIZE` in
`api/whisper.py` (100 MiB). -/
def MAX_FILE_SIZE : Nat := 100 * 1024 * 1024

/-- Splitting a character list at every occurrence of a separator
character; the sublists between separators, in order. -/
def splitOnChar (c : Char) : List Char → List (List Char)
  | [] => [[]]
  | x :: xs =>
    let r := splitOnChar c xs
    if x = c then [] :: r
    else
      match r with
      | [] => [[x]]
      | g :: gs => (x :: g) :: gs

/-- Final path component, as `pathlib.PurePosixPath(...).name`: the last
slash-separated component, with empty and single-dot components dropped by
path normalization. -/
def pathNameChars (filename : String) : List Char :=
  (((splitOnChar '/' filename.data).filter
    (fun comp => comp ≠ [] ∧ comp ≠ ['.']))).getLastD []

/-- Index of the last occurrence of a character in a list, if any. -/
def lastIdxOf (c : Char) : List Char → Option Nat
  | [] => none
  | x :: xs =>
    match lastIdxOf c xs with
    | some i => some (i + 1)
    | none => if x = c then some 0 else none

/-- Extension of a filename, as `pathlib.Path(...).suffix`: the final
component's substring from its last dot, provided that dot is neither the
leading character nor the trailing one. -/
def pathSuffix (filename : String) : String :=
  let nm := pathNameChars filename
  match lastIdxOf '.' nm with
  | some i => if 0 < i ∧ i + 1 < nm.length then String.mk (nm.drop i) else ""
  | none => ""

/-- ASCII lower-casing of one character, as Python `str.lower` acts on the
ASCII range (the only range exercised by the extension check). -/
def charLower (c : Char) : Char :=
  if 'A' ≤ c ∧ c ≤ 'Z' then Char.ofNat (c.toNat + 32) else c

/-- Lower-casing of a string, character by character. -/
def lowerStr (s : String) : String := String.mk (s.data.map charLower)

/-- Fixed-point rendering with one decimal of `n / 2^20`, modelling the
CPython format `f"{n / (1024 * 1024):.1f}"` (round half to even); the
intermediate float rounding of CPython can differ from the exact rational
rounding only on ties of the double representation. -/
def mbOneDecimal (n : Nat) : String :=
  let num := n * 10
  let d := 1024 * 1024
  let q := num / d
  let r := num % d
  let t := if 2 * r > d ∨ (2 * r = d ∧ q % 2 = 1) then q + 1 else q
  toString (t / 10) ++ "." ++ toString (t % 10)

/-- Error text of the size check in `validate_file_content`. -/
def fileTooLargeMsg (n : Nat) : String :=
  "File too large: " ++ mbOneDecimal n ++ "MB (max: 100MB)"

/-- Error text of the extension check in `validate_file_content`. -/
def unsupportedTypeMsg (ext : String) : String :=
  "Unsupported file type: " ++ ext ++ ". Supported: " ++
    String.intercalate ", " SUPPORTED_AUDIO_TYPES

/-- The file validator `validate_file_content` (`api/whisper.py`, lines
47–74): empty-content check, then size check, then extension check, raising
`FileValidationError` (here the `Except.error` branch) with the message of
the first failing check. -/
def validate_file_content (file_content : List Nat) (filename : String) :
    Except String Unit :=
  if file_content.isEmpty then Except.error "File content is empty"
  else if file_content.length > MAX_FILE_SIZE then
    Except.error (fileTooLargeMsg file_content.length)
  else
    let ext := lowerStr (pathSuffix filename)
    if SUPPORTED_AUDIO_TYPES.contains ext then Except.ok ()
    else Except.error (unsupportedTypeMsg ext)

/-- C7.  `validate_file_content` performs its checks in order (non-empty
content, size at most 100 MiB, extension in the audio allow-list); it
returns normally iff all three pass, and otherwise raises
`FileValidationError` carrying the human-readable message of the first
failing check. -/
theorem validate_file_content_spec (content : List Nat) (filename : String) :
    (validate_file_content content filename = Except.ok () ↔
      content ≠ [] ∧ content.length ≤ MAX_FILE_SIZE ∧
      lowerStr (pathSuffix filename) ∈ SUPPORTED_AUDIO_TYPES) ∧
    (content = [] →
      validate_file_content content filename = Except.error "File content is empty") ∧
    (content ≠ [] → MAX_FILE_SIZE < content.length →
      validate_file_content content filename =
        Except.error (fileTooLargeMsg content.length)) ∧
    (content ≠ [] → content.length ≤ MAX_FILE_SIZE →
      lowerStr (pathSuffix filename) ∉ SUPPORTED_AUDIO_TYPES →
      validate_file_content content filename =
        Except.error (unsupportedTypeMsg (lowerStr (pathSuffix filename)))) := by
  refine ⟨⟨fun h => ?_, fun h => ?_⟩, fun h => ?_, fun h1 h2 => ?_, fun h1 h2 h3 => ?_⟩
  · by_cases h1 : content = []
    · simp [validate_file_content, h1] at h
    · by_cases h2 : MAX_FILE_SIZE < content.length
      · simp [validate_file_content, List.isEmpty_iff, h1, h2] at h
      · by_cases h3 : lowerStr (pathSuffix filename) ∈ SUPPORTED_AUDIO_TYPES
        · exact ⟨h1, by omega, h3⟩
        · simp [validate_file_content, List.isEmpty_iff, h1, h2, h3] at h
  · obtain ⟨h1, h2, h3⟩ := h
    have h4 : ¬ MAX_FILE_SIZE < content.length := by omega
    simp [validate_file_content, List.isEmpty_iff, h1, h4, h3]
  · simp [validate_file_content, h]
  · simp [validate_file_content, List.isEmpty_iff, h1, h2]
  · have h4 : ¬ MAX_FILE_SIZE < content.length := by omega
    simp [validate_file_content, List.isEmpty_iff, h1, h4, h3]

/-- C7 witness: a small mp3 passes; empty content and a non-allow-listed
extension each fail with the matching message. -/
theorem validate_file_content_spec_witness :
    validate_file_content [1, 2, 3] "talk.mp3" = Except.ok () ∧
    validate_file_content [] "talk.mp3" = Except.error "File content is empty" ∧
    validate_file_content [7] "talk.exe" =
      Except.error (unsupportedTypeMsg (lowerStr (pathSuffix "talk.exe"))) :=
  ⟨(validate_file_content_spec [1, 2, 3] "talk.mp3").1.mpr
      ⟨by decide, by decide, by decide⟩,
   (validate_file_content_spec [] "talk.mp3").2.1 rfl,
   (validate_file_content_spec [7] "talk.exe").2.2.2
      (by decide) (by decide) (by decide)⟩

/-! ## Speaker post-processor (`api/whisper.py`, `add_speaker_diarization`) -/

/-- One transcript segment as `add_speaker_diarization` reads it: the
Python code accesses `segment.get('start', 0)`, `segment.get('end', ...)`
and writes `segment['speaker']`, so the embedded record keeps exactly those
keys, optional because `dict.get` tolerates their absence.  (`stop` renders
the Python key `end`.) -/
structure TransSegment where
  start : Option ℚ
  stop : Option ℚ
  speaker : Option String
deriving DecidableEq, Repr

/-- The transcription result dict as `add_speaker_diarization` reads it:
`segments` is `none` when the key is absent. -/
structure TransResult where
  segments : Option (List TransSegment)
deriving DecidableEq, Repr

/-- The body of the segment loop of `add_speaker_diarization`
(`api/whisper.py`, lines 400–414), carrying the loop index `i`, the current
speaker number and the last segment end time. -/
def diarizeGo (maxS : Int) (total : Nat) :
    List TransSegment → Nat → Int → ℚ → List TransSegment
  | [], _, _, _ => []
  | seg :: rest, i, cur, lastEnd =>
    let startT := seg.start.getD 0
    let cur2 := if startT - lastEnd > 2 then cur % maxS + 1 else cur
    let labeled := { seg with speaker := some ("Speaker " ++ toString cur2) }
    let lastEnd2 := seg.stop.getD startT
    let cur3 := if 0 < i ∧ i % 4 = 0 ∧ 5 < total then cur2 % maxS + 1 else cur2
    labeled :: diarizeGo maxS total rest (i + 1) cur3 lastEnd2

/-- The speaker post-processor `add_speaker_diarization` (`api/whisper.py`,
lines 381–421): it returns the result unchanged when the `segments` key is
absent or empty, and otherwise labels every segment, starting from speaker
1 and last end time 0.  `min_speakers` is received but never read by the
Python body. -/
def add_speaker_diarization (result : TransResult) (minS maxS : Int) : TransResult :=
  match result.segments with
  | none => result
  | some segs =>
    if segs.isEmpty then result
    else { result with segments := some (diarizeGo maxS segs.length segs 0 1 0) }

/-- Speaker label sequence written from the words of the claim: walk the
(start, end) pairs in order from `current_speaker = 1`, `last_end_time =
0`; advance the speaker by `(cur mod max_speakers) + 1` before labeling
whenever `start - last_end_time > 2.0`; label `"Speaker {cur}"`; set
`last_end_time` to the segment end; and additionally advance the counter
after every 4th segment when more than 5 segments exist. -/
def claimSpeakerLabels (maxS : Int) (total : Nat) :
    List (ℚ × ℚ) → Nat → Int → ℚ → List String
  | [], _, _, _ => []
  | p :: rest, i, cur, lastEnd =>
    let cur2 := if p.1 - lastEnd > 2 then cur % maxS + 1 else cur
    let cur3 := if 0 < i ∧ i % 4 = 0 ∧ 5 < total then cur2 % maxS + 1 else cur2
    ("Speaker " ++ toString cur2) :: claimSpeakerLabels maxS total rest (i + 1) cur3 p.2

/-- Auxiliary: on segments whose `start` and `end` keys are present, the
source loop produces exactly the labels of the claim's recurrence. -/
theorem diarizeGo_speakers (maxS : Int) (total : Nat) (ps : List (ℚ × ℚ)) :
    ∀ (i : Nat) (cur : Int) (lastEnd : ℚ),
      (diarizeGo maxS total (ps.map fun p => ⟨some p.1, some p.2, none⟩) i cur lastEnd).map
          (fun s => s.speaker)
        = (claimSpeakerLabels maxS total ps i cur lastEnd).map some := by
  induction ps with
  | nil => intro i cur lastEnd; rfl
  | cons p rest ih =>
    intro i cur lastEnd
    simp only [List.map_cons, diarizeGo, claimSpeakerLabels, Option.getD_some, ih]

/-- The concrete segments of the claim's example:
`[{start: 0, end: 2}, {start: 2.1, end: 4}, {start: 10, end: 12}]`. -/
def exampleSegPairs : List (ℚ × ℚ) := [(0, 2), (21 / 10, 4), (10, 12)]

/-- The claim's example input as a transcription result. -/
def exampleResult : TransResult :=
  { segments := some (exampleSegPairs.map fun p => ⟨some p.1, some p.2, none⟩) }

/-- Speaker labels computed by the source on the claim's example with
`max_speakers = 2`. -/
def exampleLabels : List (Option String) :=
  ((add_speaker_diarization exampleResult 2 2).segments.getD []).map fun s => s.speaker

/-- C8.  The speaker post-processor processes segments in order from
`current_speaker = 1`, `last_end_time = 0` following the claim's recurrence
(pause of more than 2.0 advances the speaker modulo `max_speakers` before
labeling, `last_end_time` becomes the segment end, and every 4th segment
additionally advances the counter when more than 5 segments exist); and on
the example segments with `max_speakers = 2` the third segment receives a
different label than the second. -/
theorem add_speaker_diarization_spec :
    (∀ (r : TransResult) (minS maxS : Int) (ps : List (ℚ × ℚ)),
      1 ≤ maxS →
      r.segments = some (ps.map fun p => ⟨some p.1, some p.2, none⟩) →
      ps ≠ [] →
      ((add_speaker_diarization r minS maxS).segments.getD []).map (fun s => s.speaker) =
        (claimSpeakerLabels maxS ps.length ps 0 1 0).map some) ∧
    exampleLabels = [some "Speaker 1", some "Speaker 1", some "Speaker 2"] ∧
    exampleLabels.getD 2 none ≠ exampleLabels.getD 1 none := by
  have hs1 : ("Speaker " ++ toString (1 : Int)) = "Speaker 1" := by decide
  have hs2 : ("Speaker " ++ toString (2 : Int)) = "Speaker 2" := by decide
  have hlab : exampleLabels = [some "Speaker 1", some "Speaker 1", some "Speaker 2"] := by
    norm_num [exampleLabels, exampleResult, exampleSegPairs, add_speaker_diarization,
      diarizeGo, hs1, hs2]
  refine ⟨?_, hlab, by rw [hlab]; decide⟩
  intro r minS maxS ps hmax hseg hne
  have hne2 : (ps.map fun p => (⟨some p.1, some p.2, none⟩ : TransSegment)) ≠ [] := by
    simpa using hne
  simp [add_speaker_diarization, hseg, List.isEmpty_iff, hne2, diarizeGo_speakers]

/-- C8 witness: the general recurrence part applied to the concrete example
(which satisfies the premises `1 ≤ 2`, matching segment list, nonempty). -/
theorem add_speaker_diarization_spec_witness :
    ((add_speaker_diarization exampleResult 2 2).segments.getD []).map
        (fun s => s.speaker) =
      (claimSpeakerLabels 2 exampleSegPairs.length exampleSegPairs 0 1 0).map some :=
  add_speaker_diarization_spec.1 exampleResult 2 2 exampleSegPairs
    (by decide) rfl (by simp [exampleSegPairs])

/-! ## Transcription client retry loop (`api/whisper.py`, `transcribe_audio`)

The HTTP transport is the external collaborator here: the environment is a
function assigning to each attempt index the outcome the Python code would
observe for that attempt (a 200 response with a parsed body, a non-200
status with a body, a timeout, a connection failure, or an unexpected
exception), and the loop of `transcribe_audio` is translated around it. -/

/-- The exception value the loop records in `last_exception`:
`asyncio.TimeoutError`, `aiohttp.ClientConnectionError`, or the
`aiohttp.ClientResponseError` the 5xx branch constructs. -/
inductive PyExc where
  | timeoutE
  | connE
  | respE (status : Nat) (msg : String)
deriving DecidableEq, Repr

/-- Rendering of a recorded exception, modelling Python `str(e)` on the
three exception classes above (the exact library text is irrelevant to the
claims; what matters is which exception it renders). -/
def excStr : PyExc → String
  | PyExc.timeoutE => "TimeoutError"
  | PyExc.connE => "ClientConnectionError"
  | PyExc.respE status msg => toString status ++ ", message=" ++ msg

/-- Rendering of the optional `last_exception`; Python `str(None)` is
`"None"`. -/
def excStrOpt : Option PyExc → String
  | none => "None"
  | some e => excStr e

/-- Observable outcome of one HTTP attempt of the loop. -/
inductive TransAttempt where
  | ok200 (r : TransResult)
  | httpStatus (code : Nat) (body : String)
  | timeoutErr
  | connErr
  | unexpectedExc (msg : String)
deriving DecidableEq, Repr

/-- `MAX_RETRIES` in `api/whisper.py`. -/
def MAX_RETRIES : Nat := 3

/-- The `WhisperAPIError` exception, carrying its message. -/
structure WhisperAPIErr where
  msg : String
deriving DecidableEq, Repr

/-- Python truthiness of an optional integer: `None` and `0` are falsy. -/
def intTruthy : Option Int → Bool
  | none => false
  | some n => n ≠ 0

/-- The 200-response post-processing of `transcribe_audio` (`api/whisper.py`,
lines 245–253): when `speaker_labels and min_speakers and min_speakers > 1`,
the parsed result is passed through `add_speaker_diarization`. -/
def whisperPost (sl : Bool) (minS : Option Int) (maxS : Int) (r : TransResult) :
    TransResult :=
  if sl ∧ intTruthy minS ∧ minS.getD 0 > 1 then
    add_speaker_diarization r (minS.getD 0) maxS
  else r

/-- Message of the aggregated error raised when all retries are exhausted
(`api/whisper.py`, line 297). -/
def aggregatedMsg (lastExc : Option PyExc) : String :=
  "API request failed after 3 attempts: " ++ excStrOpt lastExc

/-- The retry loop of `transcribe_audio` (`api/whisper.py`, lines 199–297),
one constructor case per observable outcome of the attempt:

* a 200 response returns the (possibly diarization-post-processed) parsed
  result;
* a 4xx status raises `WhisperAPIError` at once (the in-`try` raise is
  re-wrapped by the final `except Exception` handler, hence the
  `Transcription failed:` prefix);
* any other non-200 status becomes a `ClientResponseError` recorded in
  `last_exception` and retried;
* timeouts and connection errors are recorded and retried;
* any other exception raises `WhisperAPIError` at once;

with `await asyncio.sleep(2 ** attempt)` performed after every recorded
failure except on the final attempt, and the aggregated `WhisperAPIError`
raised once all `MAX_RETRIES` attempts are spent.  The triple returned is
(result, attempts made, backoff delays performed in order). -/
def transcribeFrom (sl : Bool) (minS : Option Int) (maxS : Int)
    (att : Nat → TransAttempt) :
    Nat → Nat → Option PyExc → List Nat →
      Except WhisperAPIErr TransResult × Nat × List Nat
  | attempt, 0, lastExc, delays =>
    (Except.error ⟨aggregatedMsg lastExc⟩, attempt, delays.reverse)
  | attempt, fuel + 1, lastExc, delays =>
    match att attempt with
    | TransAttempt.ok200 r =>
      (Except.ok (whisperPost sl minS maxS r), attempt + 1, delays.reverse)
    | TransAttempt.httpStatus c _body =>
      if 400 ≤ c ∧ c < 500 then
        (Except.error ⟨"Transcription failed: API client error: " ++ toString c⟩,
         attempt + 1, delays.reverse)
      else
        transcribeFrom sl minS maxS att (attempt + 1) fuel
          (some (PyExc.respE c _body))
          (if attempt < MAX_RETRIES - 1 then 2 ^ attempt :: delays else delays)
    | TransAttempt.timeoutErr =>
      transcribeFrom sl minS maxS att (attempt + 1) fuel (some PyExc.timeoutE)
        (if attempt < MAX_RETRIES - 1 then 2 ^ attempt :: delays else delays)
    | TransAttempt.connErr =>
      transcribeFrom sl minS maxS att (attempt + 1) fuel (some PyExc.connE)
        (if attempt < MAX_RETRIES - 1 then 2 ^ attempt :: delays else delays)
    | TransAttempt.unexpectedExc m =>
      (Except.error ⟨"Transcription failed: " ++ m⟩, attempt + 1, delays.reverse)

/-- The retry section of `transcribe_audio` started from attempt 0 with no
recorded exception, as the Python `for attempt in range(MAX_RETRIES)` loop
does once validation and request construction succeeded. -/
def transcribeAudioLoop (sl : Bool) (minS : Option Int) (maxS : Int)
    (att : Nat → TransAttempt) :
    Except WhisperAPIErr TransResult × Nat × List Nat :=
  transcribeFrom sl minS maxS att 0 MAX_RETRIES none []

/-- The attempt outcomes the claims classify as transient: connection
error, request timeout, or a remote 5xx response. -/
def isTransientAttempt : TransAttempt → Bool
  | TransAttempt.timeoutErr => true
  | TransAttempt.connErr => true
  | TransAttempt.httpStatus c _ => decide (500 ≤ c ∧ c < 600)
  | _ => false

/-- The exception the loop records for a transient attempt outcome. -/
def excOfAttempt : TransAttempt → Option PyExc
  | TransAttempt.timeoutErr => some PyExc.timeoutE
  | TransAttempt.connErr => some PyExc.connE
  | TransAttempt.httpStatus c body => some (PyExc.respE c body)
  | _ => none

/-- Stepping lemma: a transient attempt records its exception, performs the
backoff for non-final attempts, and moves on to the next attempt. -/
theorem transcribeFrom_transient_step (sl : Bool) (minS : Option Int) (maxS : Int)
    (att : Nat → TransAttempt) (attempt fuel : Nat) (lastExc : Option PyExc)
    (delays : List Nat) (ht : isTransientAttempt (att attempt) = true) :
    transcribeFrom sl minS maxS att attempt (fuel + 1) lastExc delays =
      transcribeFrom sl minS maxS att (attempt + 1) fuel (excOfAttempt (att attempt))
        (if attempt < MAX_RETRIES - 1 then 2 ^ attempt :: delays else delays) := by
  cases h : att attempt with
  | timeoutErr => simp [transcribeFrom, h, excOfAttempt]
  | connErr => simp [transcribeFrom, h, excOfAttempt]
  | httpStatus c body =>
    rw [h] at ht
    simp only [isTransientAttempt, decide_eq_true_eq] at ht
    have hc : ¬ (400 ≤ c ∧ c < 500) := by omega
    simp [transcribeFrom, h, excOfAttempt, hc]
  | ok200 r => rw [h] at ht; simp [isTransientAttempt] at ht
  | unexpectedExc m => rw [h] at ht; simp [isTransientAttempt] at ht

/-- Bound lemma: starting at a given attempt with a given fuel, the loop
makes at most `attempt + fuel` attempts in total. -/
theorem transcribeFrom_attempts_le (sl : Bool) (minS : Option Int) (maxS : Int)
    (att : Nat → TransAttempt) :
    ∀ (fuel attempt : Nat) (lastExc : Option PyExc) (delays : List Nat),
      (transcribeFrom sl minS maxS att attempt fuel lastExc delays).2.1 ≤ attempt + fuel := by
  intro fuel
  induction fuel with
  | zero => intro attempt lastExc delays; simp [transcribeFrom]
  | succ n ih =>
    intro attempt lastExc delays
    cases h : att attempt with
    | ok200 r => simp [transcribeFrom, h]
    | httpStatus c body =>
      by_cases hc : 400 ≤ c ∧ c < 500
      · simp [transcribeFrom, h, hc]
      · simp only [transcribeFrom, h, hc, if_false]
        have := ih (attempt + 1) (some (PyExc.respE c body))
          (if attempt < MAX_RETRIES - 1 then 2 ^ attempt :: delays else delays)
        omega
    | timeoutErr =>
      simp only [transcribeFrom, h]
      have := ih (attempt + 1) (some PyExc.timeoutE)
        (if attempt < MAX_RETRIES - 1 then 2 ^ attempt :: delays else delays)
      omega
    | connErr =>
      simp only [transcribeFrom, h]
      have := ih (attempt + 1) (some PyExc.connE)
        (if attempt < MAX_RETRIES - 1 then 2 ^ attempt :: delays else delays)
      omega
    | unexpectedExc m => simp [transcribeFrom, h]

/-- C2.  Every call of the transcription client makes at most 3 HTTP
attempts; listed transient failures (connection error, timeout, remote
5xx) are retried with exponential backoff of 1 then 2 time units; when the
first two attempts fail transiently and the third returns 200, the parsed
result is returned after exactly 3 attempts with delays 1 and 2; and when
all 3 attempts fail transiently, a single aggregated `WhisperAPIError`
referencing the last underlying failure is raised. -/
theorem transcribe_audio_retry_spec :
    (∀ (sl : Bool) (minS : Option Int) (maxS : Int) (att : Nat → TransAttempt),
      (transcribeAudioLoop sl minS maxS att).2.1 ≤ 3) ∧
    (∀ (minS : Option Int) (maxS : Int) (att : Nat → TransAttempt) (r : TransResult),
      isTransientAttempt (att 0) = true → isTransientAttempt (att 1) = true →
      att 2 = TransAttempt.ok200 r →
      transcribeAudioLoop false minS maxS att = (Except.ok r, 3, [1, 2])) ∧
    (∀ (sl : Bool) (minS : Option Int) (maxS : Int) (att : Nat → TransAttempt),
      isTransientAttempt (att 0) = true → isTransientAttempt (att 1) = true →
      isTransientAttempt (att 2) = true →
      transcribeAudioLoop sl minS maxS att =
        (Except.error ⟨aggregatedMsg (excOfAttempt (att 2))⟩, 3, [1, 2])) := by
  refine ⟨fun sl minS maxS att => transcribeFrom_attempts_le sl minS maxS att 3 0 none [],
    fun minS maxS att r h0 h1 h2 => ?_, fun sl minS maxS att h0 h1 h2 => ?_⟩
  · show transcribeFrom false minS maxS att 0 3 none [] = _
    rw [show (3 : Nat) = 2 + 1 from rfl, transcribeFrom_transient_step _ _ _ _ _ _ _ _ h0]
    rw [show (2 : Nat) = 1 + 1 from rfl, transcribeFrom_transient_step _ _ _ _ _ _ _ _ h1]
    simp [transcribeFrom, h2, whisperPost, MAX_RETRIES]
  · show transcribeFrom sl minS maxS att 0 3 none [] = _
    rw [show (3 : Nat) = 2 + 1 from rfl, transcribeFrom_transient_step _ _ _ _ _ _ _ _ h0]
    rw [show (2 : Nat) = 1 + 1 from rfl, transcribeFrom_transient_step _ _ _ _ _ _ _ _ h1]
    rw [show (1 : Nat) = 0 + 1 from rfl, transcribeFrom_transient_step _ _ _ _ _ _ _ _ h2]
    simp [transcribeFrom, MAX_RETRIES]

/-- Attempt-outcome environment of the C2 witness: a timeout, then a 500,
then a successful 200 with an empty parsed body. -/
def attemptsC2 : Nat → TransAttempt :=
  fun n => if n = 0 then TransAttempt.timeoutErr
    else if n = 1 then TransAttempt.httpStatus 500 "server error"
    else TransAttempt.ok200 ⟨none⟩

/-- Attempt-outcome environment for the exhaustion part of the C2 witness:
every attempt times out except the last, which gets a 503. -/
def attemptsC2b : Nat → TransAttempt :=
  fun n => if n ≤ 1 then TransAttempt.timeoutErr
    else TransAttempt.httpStatus 503 "unavailable"

/-- C2 witness: the success-on-third-attempt part and the exhaustion part,
each applied to its concrete attempt environment. -/
theorem transcribe_audio_retry_spec_witness :
    transcribeAudioLoop false none 8 attemptsC2 = (Except.ok ⟨none⟩, 3, [1, 2]) ∧
    transcribeAudioLoop true (some 2) 8 attemptsC2b =
      (Except.error ⟨aggregatedMsg (some (PyExc.respE 503 "unavailable"))⟩, 3, [1, 2]) :=
  ⟨transcribe_audio_retry_spec.2.1 none 8 attemptsC2 ⟨none⟩
      (by decide) (by decide) (by decide),
   transcribe_audio_retry_spec.2.2 true (some 2) 8 attemptsC2b
      (by decide) (by decide) (by decide)⟩

/-- C3.  If attempt `k` (after `k` transient failures) receives a 4xx
response, the call fails at once with the non-retryable `WhisperAPIError`:
exactly `k + 1` attempts are made and the only backoff delays are the `k`
performed before the 4xx — none after it. -/
theorem transcribe_audio_4xx_spec (sl : Bool) (minS : Option Int) (maxS : Int)
    (att : Nat → TransAttempt) (k c : Nat) (body : String)
    (hk : k < MAX_RETRIES)
    (hprev : ∀ j, j < k → isTransientAttempt (att j) = true)
    (hatt : att k = TransAttempt.httpStatus c body)
    (hc1 : 400 ≤ c) (hc2 : c < 500) :
    transcribeAudioLoop sl minS maxS att =
      (Except.error ⟨"Transcription failed: API client error: " ++ toString c⟩,
       k + 1, (List.range k).map (fun j => 2 ^ j)) := by
  have hc : (400 ≤ c ∧ c < 500) := ⟨hc1, hc2⟩
  have hk3 : k < 3 := by simpa [MAX_RETRIES] using hk
  show transcribeFrom sl minS maxS att 0 3 none [] = _
  interval_cases k
  · simp [transcribeFrom, hatt, hc]
  · rw [show (3 : Nat) = 2 + 1 from rfl,
      transcribeFrom_transient_step _ _ _ _ _ _ _ _ (hprev 0 (by omega))]
    simp [transcribeFrom, hatt, hc, MAX_RETRIES, List.range_succ]
  · rw [show (3 : Nat) = 2 + 1 from rfl,
      transcribeFrom_transient_step _ _ _ _ _ _ _ _ (hprev 0 (by omega))]
    rw [show (2 : Nat) = 1 + 1 from rfl,
      transcribeFrom_transient_step _ _ _ _ _ _ _ _ (hprev 1 (by omega))]
    simp [transcribeFrom, hatt, hc, MAX_RETRIES, List.range_succ]

/-- Attempt-outcome environment of the C3 witness: a 404 on the first
attempt. -/
def attemptsC3 : Nat → TransAttempt :=
  fun _ => TransAttempt.httpStatus 404 "not found"

/-- C3 witness: a 404 on the very first attempt fails at once, after 1
attempt and no backoff delay. -/
theorem transcribe_audio_4xx_spec_witness :
    transcribeAudioLoop true none 8 attemptsC3 =
      (Except.error ⟨"Transcription failed: API client error: " ++ toString 404⟩,
       1, []) := by
  have h := transcribe_audio_4xx_spec true none 8 attemptsC3 0 404 "not found"
    (by decide) (fun j hj => absurd hj (Nat.not_lt_zero j)) rfl (by decide) (by decide)
  simpa using h

/-- Python `str.startswith`, on the character lists of the strings. -/
def strStartsWith (s pre : String) : Bool := pre.data.isPrefixOf s.data

/-- Python `str.strip`: whitespace removed from both ends. -/
def pyStrip (s : String) : String :=
  String.mk (((s.data.dropWhile Char.isWhitespace).reverse.dropWhile
    Char.isWhitespace).reverse)

/-! ## Bearer-token verification (`utils/jwt_helper.py` and `server.py`)

The jose library call `jwt.decode(...)` is the external collaborator: its
observable outcome is either a decoded payload or one of the failure modes
the library raises for a bad signature, an expired token, a wrong issuer or
audience, or a malformed token.  `verify_access_token` and the
`get_current_username` dependency of `server.py` are translated around
that outcome. -/

/-- The claims of a decoded token that `verify_access_token` reads:
`payload.get("sub")` and `payload.get("type")`. -/
structure JwtPayload where
  sub : Option String
  typ : Option String
deriving DecidableEq, Repr

/-- Observable outcome of the `jwt.decode` call with the configured key,
algorithm, audience and issuer. -/
inductive JoseDecodeOutcome where
  | ok (payload : JwtPayload)
  | badSignature
  | expiredSignature
  | wrongIssuer
  | wrongAudience
  | malformed (msg : String)
deriving DecidableEq, Repr

/-- The reason `verify_access_token` raises, one constructor per failing
check of the source (`utils/jwt_helper.py`, lines 61–113).  The Python
function maps each to an exception object through its `except` chain; which
object is irrelevant downstream because `get_current_username` catches bare
`Exception`. -/
inductive VerifyFailure where
  | emptyToken (msg : String)
  | expired
  | badSignature
  | wrongIssuer
  | wrongAudience
  | malformed (msg : String)
  | missingSub
  | badTokenType
deriving DecidableEq, Repr

/-- `verify_access_token` (`utils/jwt_helper.py`, lines 61–113): empty and
blank tokens are rejected up front; a decode failure is rejected; a decoded
payload without a truthy `sub` claim is rejected; a truthy `type` claim
other than `access` is rejected; otherwise the `sub` claim is returned. -/
def verify_access_token (token : String) (outcome : JoseDecodeOutcome) :
    Except VerifyFailure String :=
  if token = "" then Except.error (VerifyFailure.emptyToken "Token must be a non-empty string")
  else if pyStrip token = "" then Except.error (VerifyFailure.emptyToken "Token cannot be empty")
  else
    match outcome with
    | JoseDecodeOutcome.expiredSignature => Except.error VerifyFailure.expired
    | JoseDecodeOutcome.badSignature => Except.error VerifyFailure.badSignature
    | JoseDecodeOutcome.wrongIssuer => Except.error VerifyFailure.wrongIssuer
    | JoseDecodeOutcome.wrongAudience => Except.error VerifyFailure.wrongAudience
    | JoseDecodeOutcome.malformed m => Except.error (VerifyFailure.malformed m)
    | JoseDecodeOutcome.ok p =>
      match p.sub with
      | none => Except.error VerifyFailure.missingSub
      | some u =>
        if u = "" then Except.error VerifyFailure.missingSub
        else
          match p.typ with
          | none => Except.ok u
          | some ty =>
            if ty ≠ "" ∧ ty ≠ "access" then Except.error VerifyFailure.badTokenType
            else Except.ok u

/-- An HTTP error raised by `server.py`, with status code and detail. -/
structure HTTPExceptionV where
  status_code : Nat
  detail : String
deriving DecidableEq, Repr

/-- `get_current_username` (`server.py`, lines 114–129): any exception from
`verify_access_token` — it catches bare `Exception` — becomes the one fixed
401 response, and only then is the allow-list consulted. -/
def get_current_username (allowed : List String) (token : String)
    (outcome : JoseDecodeOutcome) : Except HTTPExceptionV String :=
  match verify_access_token token outcome with
  | Except.error _ => Except.error ⟨401, "Invalid or expired token"⟩
  | Except.ok username =>
    if allowed.contains username then Except.ok username
    else Except.error ⟨403, "Access denied"⟩

/-- C6.  Whenever bearer-token verification fails — invalid signature,
expired token, wrong issuer or audience, or an absent `sub` claim —
`verify_access_token` raises, and the failure surfaced to its caller is in
every case the same fixed invalid-credential error (HTTP 401, detail
`Invalid or expired token`), never distinguished by which check failed. -/
theorem verify_access_token_uniform_failure (token : String)
    (outcome : JoseDecodeOutcome) (allowed : List String)
    (hfail : outcome = JoseDecodeOutcome.badSignature ∨
      outcome = JoseDecodeOutcome.expiredSignature ∨
      outcome = JoseDecodeOutcome.wrongIssuer ∨
      outcome = JoseDecodeOutcome.wrongAudience ∨
      ∃ p, outcome = JoseDecodeOutcome.ok p ∧ (p.sub = none ∨ p.sub = some "")) :
    (∃ e, verify_access_token token outcome = Except.error e) ∧
    get_current_username allowed token outcome =
      Except.error ⟨401, "Invalid or expired token"⟩ := by
  have hv : ∃ e, verify_access_token token outcome = Except.error e := by
    unfold verify_access_token
    by_cases h0 : token = ""
    · exact ⟨VerifyFailure.emptyToken "Token must be a non-empty string", by simp [h0]⟩
    · by_cases h1 : pyStrip token = ""
      · exact ⟨VerifyFailure.emptyToken "Token cannot be empty", by simp [h0, h1]⟩
      · rcases hfail with h | h | h | h | ⟨p, hp, hsub⟩
        · exact ⟨VerifyFailure.badSignature, by simp [h0, h1, h]⟩
        · exact ⟨VerifyFailure.expired, by simp [h0, h1, h]⟩
        · exact ⟨VerifyFailure.wrongIssuer, by simp [h0, h1, h]⟩
        · exact ⟨VerifyFailure.wrongAudience, by simp [h0, h1, h]⟩
        · rcases hsub with hs | hs <;>
            exact ⟨VerifyFailure.missingSub, by simp [h0, h1, hp, hs]⟩
  refine ⟨hv, ?_⟩
  obtain ⟨e, he⟩ := hv
  simp [get_current_username, he]

/-- C6 witness: a bad-signature outcome and a missing-`sub` outcome both
surface as the same 401 error. -/
theorem verify_access_token_uniform_failure_witness :
    ((∃ e, verify_access_token "tok" JoseDecodeOutcome.badSignature = Except.error e) ∧
      get_current_username ["alice"] "tok" JoseDecodeOutcome.badSignature =
        Except.error ⟨401, "Invalid or expired token"⟩) ∧
    ((∃ e, verify_access_token "tok" (JoseDecodeOutcome.ok ⟨none, some "access"⟩) =
        Except.error e) ∧
      get_current_username ["alice"] "tok" (JoseDecodeOutcome.ok ⟨none, some "access"⟩) =
        Except.error ⟨401, "Invalid or expired token"⟩) :=
  ⟨verify_access_token_uniform_failure "tok" JoseDecodeOutcome.badSignature ["alice"]
      (Or.inl rfl),
   verify_access_token_uniform_failure "tok" (JoseDecodeOutcome.ok ⟨none, some "access"⟩)
      ["alice"] (Or.inr (Or.inr (Or.inr (Or.inr ⟨_, rfl, Or.inl rfl⟩))))⟩

/-! ## Analysis client (`utils/claude_analyzer.py`)

The remote endpoint call is the external collaborator; its observable
outcome (a 200 with a parsed JSON body, a non-200 status with an error
text, a timeout, or a network error) parameterizes the embedding of
`analyze_transcript_with_claude`. -/

/-- Template text of the wrap_in_html f-string before the first filename interpolation. -/
def wrapHtmlA : String :=
  "<!DOCTYPE html>\n<html lang=\"en\">\n<head>\n    <meta charset=\"UTF-8\">\n    <meta name=" ++
  "\"viewport\" content=\"width=device-width, initial-scale=1.0\">\n    <title>Analysis Repor" ++
  "t - "

/-- Template text between the title filename and the header filename. -/
def wrapHtmlB : String :=
  "</title>\n    <style>\n        body \x7b\n            font-family: -apple-system, BlinkMac" ++
  "SystemFont, \x27Segoe UI\x27, Roboto, \x27Helvetica Neue\x27, Arial, sans-serif;\n        " ++
  "    line-height: 1.6;\n            max-width: 1200px;\n            margin: 0 auto;\n      " ++
  "      padding: 20px;\n            color: #333;\n            background: linear-gradient(13" ++
  "5deg, #667eea 0%, #764ba2 100%);\n            min-height: 100vh;\n        \x7d\n\n        " ++
  ".container \x7b\n            background: white;\n            border-radius: 12px;\n       " ++
  "     padding: 30px;\n            box-shadow: 0 10px 30px rgba(0,0,0,0.1);\n            mar" ++
  "gin: 20px 0;\n        \x7d\n\n        .header \x7b\n            text-align: center;\n     " ++
  "       border-bottom: 3px solid #667eea;\n            padding-bottom: 20px;\n            m" ++
  "argin-bottom: 30px;\n        \x7d\n\n        .header h1 \x7b\n            color: #667eea;\n" ++
  "            margin: 0;\n            font-size: 2.5em;\n        \x7d\n\n        .content \x7b" ++
  "\n            white-space: pre-wrap;\n            background: #f8f9fa;\n            paddin" ++
  "g: 25px;\n            border-radius: 8px;\n            border-left: 5px solid #667eea;\n  " ++
  "          font-size: 16px;\n        \x7d\n\n        .error-note \x7b\n            backgrou" ++
  "nd: #fff3cd;\n            color: #856404;\n            padding: 15px;\n            border-" ++
  "radius: 6px;\n            margin-bottom: 20px;\n            border-left: 4px solid #ffc107" ++
  ";\n        \x7d\n\n        @media (max-width: 768px) \x7b\n            body \x7b padding: " ++
  "10px; \x7d\n            .container \x7b padding: 20px; \x7d\n            .header h1 \x7b f" ++
  "ont-size: 2em; \x7d\n        \x7d\n\n        @media print \x7b\n            body \x7b\n   " ++
  "             background: white !important;\n                color: black !important;\n    " ++
  "        \x7d\n            .container \x7b\n                box-shadow: none !important;\n " ++
  "               margin: 0 !important;\n            \x7d\n        \x7d\n    </style>\n</head" ++
  ">\n<body>\n    <div class=\"container\">\n        <div class=\"header\">\n            <h1>" ++
  "🧠 Analysis Report</h1>\n            <p>Generated by Claude AI for: <strong>"

/-- Template text between the header filename and the timestamp. -/
def wrapHtmlC : String :=
  "</strong></p>\n            <p style=\"font-size: 14px; opacity: 0.7;\">"

/-- Template text between the timestamp and the wrapped content. -/
def wrapHtmlD : String :=
  "</p>\n        </div>\n\n        <div class=\"error-note\">\n            <strong>Note:</str" ++
  "ong> The AI response was not in the expected HTML format. \n            This is a fallback" ++
  " display of the analysis content.\n        </div>\n\n        <div class=\"content\">\n"

/-- Template text after the wrapped content. -/
def wrapHtmlE : String :=
  "\n        </div>\n    </div>\n</body>\n</html>"

/-- `wrap_in_html` (`utils/claude_analyzer.py`, lines 257–361): the content
is spliced into the fixed fallback HTML document template, with the
filename in the title and header and the current timestamp (`now`, standing
for `datetime.now().strftime(...)`) in the header. -/
def wrap_in_html (content filename now : String) : String :=
  wrapHtmlA ++ filename ++ wrapHtmlB ++ filename ++ wrapHtmlC ++ now ++
    wrapHtmlD ++ content ++ wrapHtmlE

/-- The parsed JSON body of a 200 response as the code reads it:
`result["content"]`, a list of blocks, each contributing its `text` field
(`none` models an absent `content` key). -/
structure ClaudeBody where
  content : Option (List String)
deriving DecidableEq, Repr

/-- Observable outcome of the POST to the analysis endpoint. -/
inductive ClaudeOutcome where
  | ok200 (body : ClaudeBody)
  | httpStatus (status : Nat) (errorText : String)
  | timeoutErr
  | netError (msg : String)
deriving DecidableEq, Repr

/-- The `ClaudeAnalyzerError` exception, carrying its message. -/
structure ClaudeAnalyzerErr where
  msg : String
deriving DecidableEq, Repr

/-- `analyze_transcript_with_claude` (`utils/claude_analyzer.py`, lines
136–254), from the response onward: a 200 body with a nonempty `content`
list yields its first block, wrapped through `wrap_in_html` when the
stripped text does not start with the `<!DOCTYPE html` marker; a 200
without usable content and every non-200 status, timeout or network error
raises `ClaudeAnalyzerError` with the matching message. -/
def analyze_transcript_with_claude (filename now : String) (outcome : ClaudeOutcome) :
    Except ClaudeAnalyzerErr String :=
  match outcome with
  | ClaudeOutcome.ok200 body =>
    match body.content with
    | some (text :: _) =>
      if strStartsWith (pyStrip text) "<!DOCTYPE html" then Except.ok text
      else Except.ok (wrap_in_html text filename now)
    | _ => Except.error ⟨"Invalid response format from Claude API"⟩
  | ClaudeOutcome.httpStatus status errorText =>
    if status = 401 then Except.error ⟨"Invalid Claude API key"⟩
    else if status = 429 then
      Except.error ⟨"Claude API rate limit exceeded - please try again in a few minutes"⟩
    else if 500 ≤ status then
      Except.error ⟨"Claude API server error - please try again later"⟩
    else Except.error ⟨"Claude API error " ++ toString status ++ ": " ++ errorText⟩
  | ClaudeOutcome.timeoutErr =>
    Except.error ⟨"Analysis timeout - please try with a shorter audio file or try again later"⟩
  | ClaudeOutcome.netError m => Except.error ⟨"Network error: " ++ m⟩

/-- The wrapped document always begins with the expected marker. -/
theorem wrap_in_html_marker (content filename now : String) :
    strStartsWith (wrap_in_html content filename now) "<!DOCTYPE html" = true := by
  show ("<!DOCTYPE html").data.isPrefixOf (wrap_in_html content filename now).data = true
  rw [List.isPrefixOf_iff_prefix]
  have h1 : ("<!DOCTYPE html").data <+: wrapHtmlA.data := by
    rw [← List.isPrefixOf_iff_prefix]; decide
  have h2 : (wrap_in_html content filename now).data =
      wrapHtmlA.data ++ (filename ++ wrapHtmlB ++ filename ++ wrapHtmlC ++ now ++
        wrapHtmlD ++ content ++ wrapHtmlE).data := by
    simp [wrap_in_html, String.data_append, List.append_assoc]
  rw [h2]
  exact h1.trans (List.prefix_append _ _)

/-- C9.  On every 200 response whose body carries a nonempty content list,
the analysis client checks whether the returned text (stripped) begins with
the `<!DOCTYPE html` marker; when it does not, the call does not fail: it
returns the raw text spliced into the fallback HTML shell — a document that
itself begins with the marker and contains the raw text verbatim. -/
theorem analyze_transcript_with_claude_wraps (filename now text : String)
    (rest : List String) (body : ClaudeBody)
    (hc : body.content = some (text :: rest)) :
    (analyze_transcript_with_claude filename now (ClaudeOutcome.ok200 body) =
      Except.ok (if strStartsWith (pyStrip text) "<!DOCTYPE html" then text
        else wrap_in_html text filename now)) ∧
    (strStartsWith (pyStrip text) "<!DOCTYPE html" = false →
      analyze_transcript_with_claude filename now (ClaudeOutcome.ok200 body) =
        Except.ok (wrap_in_html text filename now)) ∧
    strStartsWith (wrap_in_html text filename now) "<!DOCTYPE html" = true ∧
    (∃ p q, wrap_in_html text filename now = p ++ (text ++ q)) := by
  refine ⟨?_, fun hm => ?_, wrap_in_html_marker text filename now,
    ⟨wrapHtmlA ++ filename ++ wrapHtmlB ++ filename ++ wrapHtmlC ++ now ++ wrapHtmlD,
     wrapHtmlE, ?_⟩⟩
  · by_cases hm : strStartsWith (pyStrip text) "<!DOCTYPE html" = true <;>
      simp [analyze_transcript_with_claude, hc, hm]
  · simp [analyze_transcript_with_claude, hc, hm]
  · simp [wrap_in_html, String.ext_iff, String.data_append, List.append_assoc]

/-- C9 witness: a plain-text body is wrapped into the shell, which starts
with the document marker and contains the body. -/
theorem analyze_transcript_with_claude_wraps_witness :
    (analyze_transcript_with_claude "talk.mp3" "2026-01-01 00:00:00"
        (ClaudeOutcome.ok200 ⟨some ["plain analysis text"]⟩) =
      Except.ok (wrap_in_html "plain analysis text" "talk.mp3" "2026-01-01 00:00:00")) ∧
    strStartsWith (wrap_in_html "plain analysis text" "talk.mp3" "2026-01-01 00:00:00")
      "<!DOCTYPE html" = true :=
  have h := analyze_transcript_with_claude_wraps "talk.mp3" "2026-01-01 00:00:00"
    "plain analysis text" [] ⟨some ["plain analysis text"]⟩ rfl
  ⟨h.2.1 (by decide), h.2.2.1⟩

/-! ## Telegram WebApp login verification (`utils/telegram_auth.py`)

The SHA-256 compression is the external collaborator: every definition is
parameterized by a hash function `H` over byte lists, and the HMAC
construction, the check-string canonicalization and the acceptance logic
are translated from the source.  `parse_qsl` and `json.loads` are stdlib
collaborators modelled on the fragment the payloads use: percent escapes
decode single bytes (the payloads considered are ASCII) and the user field
is a flat JSON object of string/int/bool/null values without escapes. -/

/-- The opening-brace character, kept as a named constant. -/
def lbraceChar : Char := Char.ofNat 123

/-- The closing-brace character, kept as a named constant. -/
def rbraceChar : Char := Char.ofNat 125

/-- Splitting a character list at the first `=`, if any (the
`name_value.split('=', 1)` of `urllib.parse.parse_qsl`). -/
def splitFirstEq : List Char → Option (List Char × List Char)
  | [] => none
  | c :: cs =>
    if c = '=' then some ([], cs)
    else
      match splitFirstEq cs with
      | none => none
      | some (a, b) => some (c :: a, b)

/-- Value of a hexadecimal digit character, if it is one. -/
def hexDigitVal (c : Char) : Option Nat :=
  if '0' ≤ c ∧ c ≤ '9' then some (c.toNat - 48)
  else if 'a' ≤ c ∧ c ≤ 'f' then some (c.toNat - 87)
  else if 'A' ≤ c ∧ c ≤ 'F' then some (c.toNat - 55)
  else none

/-- `urllib.parse.unquote_plus` on the ASCII fragment: `+` becomes a space
and `%HH` decodes to the byte `HH` (multi-byte UTF-8 escape sequences do
not occur in the payloads considered); a malformed escape is left as-is. -/
def unquotePlusChars : List Char → List Char
  | [] => []
  | '%' :: h1 :: h2 :: rest =>
    match hexDigitVal h1, hexDigitVal h2 with
    | some a, some b => Char.ofNat (16 * a + b) :: unquotePlusChars rest
    | _, _ => '%' :: unquotePlusChars (h1 :: h2 :: rest)
  | c :: rest =>
    if c = '+' then ' ' :: unquotePlusChars rest
    else c :: unquotePlusChars rest

/-- `urllib.parse.parse_qsl(init_data, keep_blank_values=True)`: fields
split on `&`, empty fields skipped, each field split at its first `=` (a
field with no `=` keeps a blank value), both halves unquoted. -/
def parseQsl (s : String) : List (String × String) :=
  (splitOnChar '&' s.data).filterMap fun field =>
    if field = [] then none
    else
      match splitFirstEq field with
      | some (n, v) =>
        some (String.mk (unquotePlusChars n), String.mk (unquotePlusChars v))
      | none => some (String.mk (unquotePlusChars field), "")

/-- One `dict` insertion: a later duplicate key overwrites the stored
value in place. -/
def dictUpdate (m : List (String × String)) (k v : String) :
    List (String × String) :=
  if m.any (fun p => p.1 == k) then
    m.map (fun p => if p.1 == k then (k, v) else p)
  else m ++ [(k, v)]

/-- `dict(pairs)`: left-to-right insertion with overwrite on duplicates. -/
def dictOf (l : List (String × String)) : List (String × String) :=
  l.foldl (fun m p => dictUpdate m p.1 p.2) []

/-- `d.get(k)`: the stored value, if the key is present. -/
def dictGet (m : List (String × String)) (k : String) : Option String :=
  (m.find? (fun p => p.1 == k)).map (fun p => p.2)

/-- Key removal, as performed by `d.pop(k, None)`. -/
def dictRemove (m : List (String × String)) (k : String) :
    List (String × String) :=
  m.filter (fun p => p.1 != k)

/-- Lexicographic code-point comparison of character lists, the order
Python uses to compare strings. -/
def charListLt : List Char → List Char → Bool
  | [], [] => false
  | [], _ :: _ => true
  | _ :: _, [] => false
  | a :: as, b :: bs =>
    if a.toNat < b.toNat then true
    else if b.toNat < a.toNat then false
    else charListLt as bs

/-- Python string comparison, on the character lists. -/
def strLtB (a b : String) : Bool := charListLt a.data b.data

/-- Ordered insertion by key, for the canonicalization sort. -/
def insertPairSorted (p : String × String) :
    List (String × String) → List (String × String)
  | [] => [p]
  | q :: rest =>
    if strLtB p.1 q.1 then p :: q :: rest else q :: insertPairSorted p rest

/-- `sorted(parsed.items())`: the pairs in ascending key order (keys are
unique after `dict`, so value order never matters). -/
def sortPairs (l : List (String × String)) : List (String × String) :=
  l.foldr insertPairSorted []

/-- The canonical data-check string: newline-joined `key=value` lines in
sorted key order (`utils/telegram_auth.py`, line 75). -/
def checkStringOf (m : List (String × String)) : String :=
  String.intercalate "\n" ((sortPairs m).map (fun p => p.1 ++ "=" ++ p.2))

/-- UTF-8 encoding of one character. -/
def utf8EncodeChar (c : Char) : List Nat :=
  let n := c.toNat
  if n < 128 then [n]
  else if n < 2048 then [192 + n / 64, 128 + n % 64]
  else if n < 65536 then [224 + n / 4096, 128 + n / 64 % 64, 128 + n % 64]
  else [240 + n / 262144, 128 + n / 4096 % 64, 128 + n / 64 % 64, 128 + n % 64]

/-- UTF-8 encoding of a string (`str.encode()`), as a byte list. -/
def utf8Encode (s : String) : List Nat :=
  (s.data.map utf8EncodeChar).flatten

/-- The HMAC construction of the `hmac` stdlib module over an abstract
compression function `H` with the SHA-256 block size of 64 bytes: a key
longer than one block is hashed, the key is zero-padded, and the digest is
`H(opad-key ++ H(ipad-key ++ msg))`. -/
def hmacDigest (H : List Nat → List Nat) (key msg : List Nat) : List Nat :=
  let k0 := if key.length > 64 then H key else key
  let kp := k0 ++ List.replicate (64 - k0.length) 0
  let ipad := kp.map (fun b => b ^^^ 54)
  let opad := kp.map (fun b => b ^^^ 92)
  H (opad ++ H (ipad ++ msg))

/-- Lower-case hexadecimal digit of a value below 16. -/
def hexDigitChar (n : Nat) : Char :=
  if n < 10 then Char.ofNat (48 + n) else Char.ofNat (87 + n)

/-- `bytes.hex()` / `.hexdigest()`: two lower-case hex digits per byte. -/
def hexOfBytes (l : List Nat) : String :=
  String.mk (l.foldr
    (fun b acc => hexDigitChar (b % 256 / 16) :: hexDigitChar (b % 16) :: acc) [])

/-- Integer value of a digit list. -/
def digitsValInt (ds : List Char) : Int :=
  ds.foldl (fun a c => a * 10 + (Int.ofNat (c.toNat - 48))) 0

/-- Python `int(str)` on the fragment used by `auth_date`: optional sign
and decimal digits, surrounding whitespace stripped (digit grouping with
underscores is not modelled). -/
def pyToInt (s : String) : Option Int :=
  match (pyStrip s).data with
  | [] => none
  | c :: ds =>
    if c = '-' then
      if ds ≠ [] ∧ ds.all Char.isDigit then some (-(digitsValInt ds)) else none
    else if c = '+' then
      if ds ≠ [] ∧ ds.all Char.isDigit then some (digitsValInt ds) else none
    else if (c :: ds).all Char.isDigit then some (digitsValInt (c :: ds))
    else none

/-- A JSON value of the flat fragment the `user` field uses. -/
inductive JsonVal where
  | str (s : String)
  | int (n : Int)
  | bool (b : Bool)
  | null
deriving DecidableEq, Repr

/-- JSON insignificant whitespace. -/
def jsonSkipWs (l : List Char) : List Char :=
  l.dropWhile (fun c => c == ' ' || c == '\t' || c == '\n' || c == '\r')

/-- Body of a JSON string after its opening quote: the characters up to
the closing quote (escape sequences are not modelled; none occur in the
payloads considered). -/
def takeJsonString : List Char → Option (String × List Char)
  | [] => none
  | c :: cs =>
    if c = '"' then some ("", cs)
    else if c = '\\' then none
    else
      match takeJsonString cs with
      | some (s, rest) => some (String.mk (c :: s.data), rest)
      | none => none

/-- One JSON scalar value of the flat fragment. -/
def parseJsonValue (l : List Char) : Option (JsonVal × List Char) :=
  match jsonSkipWs l with
  | [] => none
  | c :: cs =>
    if c = '"' then
      match takeJsonString cs with
      | some (s, rest) => some (JsonVal.str s, rest)
      | none => none
    else if c = 't' then
      match cs with
      | 'r' :: 'u' :: 'e' :: rest => some (JsonVal.bool true, rest)
      | _ => none
    else if c = 'f' then
      match cs with
      | 'a' :: 'l' :: 's' :: 'e' :: rest => some (JsonVal.bool false, rest)
      | _ => none
    else if c = 'n' then
      match cs with
      | 'u' :: 'l' :: 'l' :: rest => some (JsonVal.null, rest)
      | _ => none
    else if c = '-' then
      match cs.span (fun d => d.isDigit) with
      | ([], _) => none
      | (ds, rest) => some (JsonVal.int (-(digitsValInt ds)), rest)
    else
      match (c :: cs).span (fun d => d.isDigit) with
      | ([], _) => none
      | (ds, rest) => some (JsonVal.int (digitsValInt ds), rest)

/-- The member list of a flat JSON object, after its opening brace; the
fuel argument bounds the recursion by the input length. -/
def parseJsonMembers : Nat → List Char → Option (List (String × JsonVal) × List Char)
  | 0, _ => none
  | fuel + 1, l =>
    match jsonSkipWs l with
    | [] => none
    | c :: cs =>
      if c = '"' then
        match takeJsonString cs with
        | none => none
        | some (k, rest) =>
          match jsonSkipWs rest with
          | [] => none
          | c2 :: rest2 =>
            if c2 = ':' then
              match parseJsonValue rest2 with
              | none => none
              | some (v, rest3) =>
                match jsonSkipWs rest3 with
                | [] => none
                | c3 :: rest4 =>
                  if c3 = ',' then
                    match parseJsonMembers fuel rest4 with
                    | some (ms, rest5) => some ((k, v) :: ms, rest5)
                    | none => none
                  else if c3 = rbraceChar then some ([(k, v)], rest4)
                  else none
            else none
      else none

/-- `json.loads` on the flat-object fragment: a brace-delimited object of
string keys and scalar values, with nothing but whitespace around it.
Inputs outside this fragment are rejected, where CPython may accept more;
the user payloads the claims exercise stay inside the fragment. -/
def jsonLoadsFlat (s : String) : Option (List (String × JsonVal)) :=
  match jsonSkipWs s.data with
  | [] => none
  | c :: cs =>
    if c = lbraceChar then
      match jsonSkipWs cs with
      | [] => none
      | c2 :: cs2 =>
        if c2 = rbraceChar then
          if jsonSkipWs cs2 = [] then some [] else none
        else
          match parseJsonMembers (cs.length + 1) cs with
          | some (ms, rest) => if jsonSkipWs rest = [] then some ms else none
          | none => none
    else none

/-- `obj.get(k)` on a parsed JSON object. -/
def jsonLookup (obj : List (String × JsonVal)) (k : String) : Option JsonVal :=
  ((obj.find? (fun p => p.1 == k))).map (fun p => p.2)

/-- The `id` extraction: `user_data.get("id")` passes the
`isinstance(user_id, int)` check for JSON integers and (as in Python,
where `bool` is an `int` subclass) for JSON booleans. -/
def jsonGetIntLike (obj : List (String × JsonVal)) (k : String) : Option Int :=
  match jsonLookup obj k with
  | some (JsonVal.int n) => some n
  | some (JsonVal.bool b) => some (if b then 1 else 0)
  | _ => none

/-- The `username` extraction: `user_data.get("username", "")` yields the
empty string when the key is absent; a non-string value makes the
subsequent `.strip()` raise (surfacing as the generic validation error),
rendered here as `none`. -/
def jsonGetStrField (obj : List (String × JsonVal)) (k : String) : Option String :=
  match jsonLookup obj k with
  | none => some ""
  | some (JsonVal.str s) => some s
  | some _ => none

/-- Maximum accepted age of the login payload, `MAX_AUTH_AGE` in
`utils/telegram_auth.py` (24 hours, in seconds). -/
def MAX_AUTH_AGE : Int := 24 * 60 * 60

/-- The derived secret key: `hmac.new(b"WebAppData", BOT_TOKEN.encode(),
sha256).digest()` (`utils/telegram_auth.py`, line 79). -/
def telegramSecretKey (H : List Nat → List Nat) (botToken : String) : List Nat :=
  hmacDigest H (utf8Encode "WebAppData") (utf8Encode botToken)

/-- The calculated signature over a parsed payload:
`hmac.new(secret_key, data_check_string.encode(), sha256).hexdigest()`. -/
def telegramCalcHash (H : List Nat → List Nat) (botToken : String)
    (parsed : List (String × String)) : String :=
  hexOfBytes (hmacDigest H (telegramSecretKey H botToken)
    (utf8Encode (checkStringOf parsed)))

/-- The verification result dict (`username`, `user_id`; the raw
`user_data` map adds nothing the claims read). -/
structure TgAuthResult where
  username : String
  user_id : Int
deriving DecidableEq, Repr

/-- `verify_telegram_init_data` (`utils/telegram_auth.py`, lines 16–125),
over the abstract hash `H`, with `isDev`/`devUsername` standing for the
`ENV == "dev"` stub, `botToken` for `BOT_TOKEN` and `now` for
`int(time.time())`:

* dev mode returns the stub result unconditionally;
* an unset bot token is a configuration error;
* the payload is parsed with `parse_qsl` into a dict and the `hash` field
  popped; a missing or blank hash is rejected;
* when an `auth_date` field is present and truthy, it must parse as an
  integer no older than `MAX_AUTH_AGE`; both a malformed and an expired
  value surface as `Invalid auth_date`, because the `raise` of the expiry
  branch is itself caught by the surrounding `except (ValueError,
  TypeError)` clause and re-raised with that message;
* the HMAC of the sorted check string under the derived secret must equal
  the received hash (`hmac.compare_digest` on equal-length hex strings is
  string equality);
* the `user` field (default an empty object) must parse as JSON, carry an
  integer-like `id` and a username that is nonempty after strip and
  lower-casing, which becomes the returned principal. -/
def verify_telegram_init_data (H : List Nat → List Nat) (isDev : Bool)
    (devUsername : String) (botToken : String) (now : Int) (init_data : String) :
    Except String TgAuthResult :=
  if isDev then Except.ok ⟨devUsername, 12345⟩
  else if botToken = "" then Except.error "Server configuration error"
  else
    let parsed0 := dictOf (parseQsl init_data)
    match dictGet parsed0 "hash" with
    | none => Except.error "Missing hash in initData"
    | some h =>
      if h = "" then Except.error "Missing hash in initData"
      else
        let parsed := dictRemove parsed0 "hash"
        let adCheck : Option String :=
          match dictGet parsed "auth_date" with
          | none => none
          | some ad =>
            if ad = "" then none
            else
              match pyToInt ad with
              | none => some "Invalid auth_date"
              | some ts =>
                if now - ts > MAX_AUTH_AGE then some "Invalid auth_date" else none
        match adCheck with
        | some e => Except.error e
        | none =>
          if telegramCalcHash H botToken parsed ≠ h then
            Except.error "Invalid initData signature"
          else
            let userJson := (dictGet parsed "user").getD "\x7b\x7d"
            match jsonLoadsFlat userJson with
            | none => Except.error "Invalid user data format"
            | some obj =>
              match jsonGetIntLike obj "id" with
              | none => Except.error "User data validation failed"
              | some uid =>
                match jsonGetStrField obj "username" with
                | none => Except.error "User data validation failed"
                | some uname =>
                  let normalized := lowerStr (pyStrip uname)
                  if normalized = "" then Except.error "User data validation failed"
                  else Except.ok ⟨normalized, uid⟩

/-- Acceptance helper: with a nonempty received hash, a fresh or absent
`auth_date`, a matching calculated signature and a well-formed embedded
user, the verifier returns the normalized principal. -/
theorem verifyTelegram_accept_aux (H : List Nat → List Nat) (dev botToken : String)
    (now : Int) (s h uj : String) (obj : List (String × JsonVal)) (uid : Int)
    (uname : String)
    (hbt : botToken ≠ "")
    (hh : dictGet (dictOf (parseQsl s)) "hash" = some h) (hhne : h ≠ "")
    (hdate : dictGet (dictRemove (dictOf (parseQsl s)) "hash") "auth_date" = none ∨
      (∃ ad ts, dictGet (dictRemove (dictOf (parseQsl s)) "hash") "auth_date" = some ad ∧
        ad ≠ "" ∧ pyToInt ad = some ts ∧ now - ts ≤ MAX_AUTH_AGE))
    (hsig : telegramCalcHash H botToken (dictRemove (dictOf (parseQsl s)) "hash") = h)
    (hu : dictGet (dictRemove (dictOf (parseQsl s)) "hash") "user" = some uj)
    (hj : jsonLoadsFlat uj = some obj)
    (hid : jsonGetIntLike obj "id" = some uid)
    (hun : jsonGetStrField obj "username" = some uname)
    (hnn : lowerStr (pyStrip uname) ≠ "") :
    verify_telegram_init_data H false dev botToken now s =
      Except.ok ⟨lowerStr (pyStrip uname), uid⟩ := by
  rcases hdate with hnod | ⟨ad, ts, had, hadne, hts, hfresh⟩
  · simp [verify_telegram_init_data, hbt, hh, hhne, hnod, hsig, hu, hj, hid, hun, hnn]
  · have hnotold : ¬ (now - ts > MAX_AUTH_AGE) := by omega
    simp [verify_telegram_init_data, hbt, hh, hhne, had, hadne, hts, hnotold,
      hsig, hu, hj, hid, hun, hnn]

/-- Rejection helper: with a fresh or absent `auth_date`, a calculated
signature differing from the received hash is rejected as an invalid
signature. -/
theorem verifyTelegram_badsig_aux (H : List Nat → List Nat) (dev botToken : String)
    (now : Int) (s h : String)
    (hbt : botToken ≠ "")
    (hh : dictGet (dictOf (parseQsl s)) "hash" = some h) (hhne : h ≠ "")
    (hdate : dictGet (dictRemove (dictOf (parseQsl s)) "hash") "auth_date" = none ∨
      (∃ ad ts, dictGet (dictRemove (dictOf (parseQsl s)) "hash") "auth_date" = some ad ∧
        ad ≠ "" ∧ pyToInt ad = some ts ∧ now - ts ≤ MAX_AUTH_AGE))
    (hsig : telegramCalcHash H botToken (dictRemove (dictOf (parseQsl s)) "hash") ≠ h) :
    verify_telegram_init_data H false dev botToken now s =
      Except.error "Invalid initData signature" := by
  rcases hdate with hnod | ⟨ad, ts, had, hadne, hts, hfresh⟩
  · simp [verify_telegram_init_data, hbt, hh, hhne, hnod, hsig]
  · have hnotold : ¬ (now - ts > MAX_AUTH_AGE) := by omega
    simp [verify_telegram_init_data, hbt, hh, hhne, had, hadne, hts, hnotold, hsig]

/-- Rejection helper: an `auth_date` older than `MAX_AUTH_AGE` is rejected
before the signature is even computed. -/
theorem verifyTelegram_stale_aux (H : List Nat → List Nat) (dev botToken : String)
    (now : Int) (s h ad : String) (ts : Int)
    (hbt : botToken ≠ "")
    (hh : dictGet (dictOf (parseQsl s)) "hash" = some h) (hhne : h ≠ "")
    (had : dictGet (dictRemove (dictOf (parseQsl s)) "hash") "auth_date" = some ad)
    (hadne : ad ≠ "") (hts : pyToInt ad = some ts)
    (hold : now - ts > MAX_AUTH_AGE) :
    verify_telegram_init_data H false dev botToken now s =
      Except.error "Invalid auth_date" := by
  simp [verify_telegram_init_data, hbt, hh, hhne, had, hadne, hts, hold]

/-- C4.  Over any hash function, for a payload carrying a nonempty `hash`
field, a truthy integer `auth_date` and a well-formed embedded user: the
payload is accepted iff the HMAC of the newline-joined key-sorted check
string (hash removed), under the secret derived from the bot token with
the `WebAppData` label, equals the received hash and the `auth_date` is at
most 24 hours old; acceptance yields the embedded username lower-cased; a
payload whose recomputed signature differs from the received one — which
is what a tampered field value produces unless the hash function collides
— is rejected; and a payload older than 24 hours is rejected.  (The
constant-time aspect of `hmac.compare_digest` has no functional content
beyond string equality and is not modelled.) -/
theorem verify_telegram_init_data_spec :
    (∀ (H : List Nat → List Nat) (dev botToken : String) (now : Int)
        (s h ad uj : String) (ts : Int) (obj : List (String × JsonVal))
        (uid : Int) (uname : String),
      botToken ≠ "" →
      dictGet (dictOf (parseQsl s)) "hash" = some h → h ≠ "" →
      dictGet (dictRemove (dictOf (parseQsl s)) "hash") "auth_date" = some ad →
      ad ≠ "" → pyToInt ad = some ts →
      dictGet (dictRemove (dictOf (parseQsl s)) "hash") "user" = some uj →
      jsonLoadsFlat uj = some obj →
      jsonGetIntLike obj "id" = some uid →
      jsonGetStrField obj "username" = some uname →
      lowerStr (pyStrip uname) ≠ "" →
      (verify_telegram_init_data H false dev botToken now s =
          Except.ok ⟨lowerStr (pyStrip uname), uid⟩ ↔
        (telegramCalcHash H botToken (dictRemove (dictOf (parseQsl s)) "hash") = h ∧
          now - ts ≤ MAX_AUTH_AGE))) ∧
    (∀ (H : List Nat → List Nat) (dev botToken : String) (now : Int)
        (s h ad : String) (ts : Int),
      botToken ≠ "" →
      dictGet (dictOf (parseQsl s)) "hash" = some h → h ≠ "" →
      dictGet (dictRemove (dictOf (parseQsl s)) "hash") "auth_date" = some ad →
      ad ≠ "" → pyToInt ad = some ts → now - ts > MAX_AUTH_AGE →
      verify_telegram_init_data H false dev botToken now s =
        Except.error "Invalid auth_date") ∧
    (∀ (H : List Nat → List Nat) (dev botToken : String) (now : Int)
        (s h ad : String) (ts : Int),
      botToken ≠ "" →
      dictGet (dictOf (parseQsl s)) "hash" = some h → h ≠ "" →
      dictGet (dictRemove (dictOf (parseQsl s)) "hash") "auth_date" = some ad →
      ad ≠ "" → pyToInt ad = some ts → now - ts ≤ MAX_AUTH_AGE →
      telegramCalcHash H botToken (dictRemove (dictOf (parseQsl s)) "hash") ≠ h →
      verify_telegram_init_data H false dev botToken now s =
        Except.error "Invalid initData signature") := by
  refine ⟨?_, ?_, ?_⟩
  · intro H dev botToken now s h ad uj ts obj uid uname
      hbt hh hhne had hadne hts hu hj hid hun hnn
    constructor
    · intro hok
      by_cases hfresh : now - ts ≤ MAX_AUTH_AGE
      · refine ⟨?_, hfresh⟩
        by_contra hsig
        have herr := verifyTelegram_badsig_aux H dev botToken now s h hbt hh hhne
          (Or.inr ⟨ad, ts, had, hadne, hts, hfresh⟩) hsig
        have hcontra := herr.symm.trans hok
        simp at hcontra
      · have herr := verifyTelegram_stale_aux H dev botToken now s h ad ts
          hbt hh hhne had hadne hts (by omega)
        have hcontra := herr.symm.trans hok
        simp at hcontra
    · rintro ⟨hsig, hfresh⟩
      exact verifyTelegram_accept_aux H dev botToken now s h uj obj uid uname
        hbt hh hhne (Or.inr ⟨ad, ts, had, hadne, hts, hfresh⟩) hsig hu hj hid hun hnn
  · intro H dev botToken now s h ad ts hbt hh hhne had hadne hts hold
    exact verifyTelegram_stale_aux H dev botToken now s h ad ts
      hbt hh hhne had hadne hts hold
  · intro H dev botToken now s h ad ts hbt hh hhne had hadne hts hfresh hsig
    exact verifyTelegram_badsig_aux H dev botToken now s h hbt hh hhne
      (Or.inr ⟨ad, ts, had, hadne, hts, hfresh⟩) hsig

set_option maxRecDepth 400000

/-- A toy compression function for the witnesses: the acceptance logic is
proved for every hash function, and the witnesses instantiate it with a
content-sensitive byte fold. -/
def hashFold (l : List Nat) : List Nat :=
  [l.foldl (fun a b => (a + 31 * b) % 256) 7]

/-- A correctly signed payload under `hashFold` with bot token `bot123`,
issued at time 1000. -/
def initDataC4 : String :=
  "auth_date=1000&user=\x7b\"id\":7,\"username\":\"Alice\"\x7d&hash=15"

/-- The same payload with the username field value tampered (signature kept). -/
def initDataC4tampered : String :=
  "auth_date=1000&user=\x7b\"id\":7,\"username\":\"Bob\"\x7d&hash=15"

/-- The parsed embedded user object of the signed payload. -/
def userObjC4 : List (String × JsonVal) :=
  [("id", JsonVal.int 7), ("username", JsonVal.str "Alice")]

/-- C4 witness: at time 2000 the signed payload is accepted and yields the
lower-cased username; at time 90000 (more than 24 hours after issuance) it
is rejected as expired; and the tampered payload carrying the same
signature is rejected as an invalid signature. -/
theorem verify_telegram_init_data_spec_witness :
    verify_telegram_init_data hashFold false "dev" "bot123" 2000 initDataC4 =
      Except.ok ⟨"alice", 7⟩ ∧
    verify_telegram_init_data hashFold false "dev" "bot123" 90000 initDataC4 =
      Except.error "Invalid auth_date" ∧
    verify_telegram_init_data hashFold false "dev" "bot123" 2000 initDataC4tampered =
      Except.error "Invalid initData signature" := by
  refine ⟨?_, ?_, ?_⟩
  · exact (verify_telegram_init_data_spec.1 hashFold "dev" "bot123" 2000 initDataC4
      "15" "1000" "\x7b\"id\":7,\"username\":\"Alice\"\x7d" 1000 userObjC4 7 "Alice"
      (by decide) rfl (by decide) rfl (by decide) rfl rfl rfl rfl rfl
      (by decide)).mpr ⟨rfl, by decide⟩
  · exact verify_telegram_init_data_spec.2.1 hashFold "dev" "bot123" 90000 initDataC4
      "15" "1000" 1000 (by decide) rfl (by decide) rfl (by decide) rfl (by decide)
  · exact verify_telegram_init_data_spec.2.2 hashFold "dev" "bot123" 2000
      initDataC4tampered "15" "1000" 1000 (by decide) rfl (by decide) rfl (by decide)
      rfl (by decide) (by decide)

/-- C10.  A payload with a valid signature and no `auth_date` field at all
skips the maximum-age check entirely: it is accepted and yields the
embedded username at every current time, however old the payload is. -/
theorem verify_telegram_no_auth_date_spec (H : List Nat → List Nat)
    (dev botToken : String) (s h uj : String) (obj : List (String × JsonVal))
    (uid : Int) (uname : String)
    (hbt : botToken ≠ "")
    (hh : dictGet (dictOf (parseQsl s)) "hash" = some h) (hhne : h ≠ "")
    (hnod : dictGet (dictRemove (dictOf (parseQsl s)) "hash") "auth_date" = none)
    (hsig : telegramCalcHash H botToken (dictRemove (dictOf (parseQsl s)) "hash") = h)
    (hu : dictGet (dictRemove (dictOf (parseQsl s)) "hash") "user" = some uj)
    (hj : jsonLoadsFlat uj = some obj)
    (hid : jsonGetIntLike obj "id" = some uid)
    (hun : jsonGetStrField obj "username" = some uname)
    (hnn : lowerStr (pyStrip uname) ≠ "") :
    ∀ now : Int, verify_telegram_init_data H false dev botToken now s =
      Except.ok ⟨lowerStr (pyStrip uname), uid⟩ :=
  fun now => verifyTelegram_accept_aux H dev botToken now s h uj obj uid uname
    hbt hh hhne (Or.inl hnod) hsig hu hj hid hun hnn

/-- A correctly signed payload under `hashFold` with no `auth_date` field. -/
def initDataC10 : String :=
  "user=\x7b\"id\":7,\"username\":\"Alice\"\x7d&hash=1e"

/-- C10 witness: the date-less signed payload is accepted at an arbitrarily
late current time. -/
theorem verify_telegram_no_auth_date_spec_witness :
    verify_telegram_init_data hashFold false "dev" "bot123" 999999999 initDataC10 =
      Except.ok ⟨"alice", 7⟩ :=
  verify_telegram_no_auth_date_spec hashFold "dev" "bot123" initDataC10
    "1e" "\x7b\"id\":7,\"username\":\"Alice\"\x7d" userObjC4 7 "Alice"
    (by decide) rfl (by decide) rfl rfl rfl rfl rfl rfl (by decide) 999999999


end WhisperTranscriber
